import Mathlib

/-!
Verification development for the `yolo-run-camera.py` script of the
AI-Camera-Fire-Smoke-Human-Detection repository.

The script's logic is embedded shallowly:

* File-system paths are modelled as `PyPath` (an absolute flag plus a list
  of components), following POSIX `pathlib.Path` construction: a string is
  absolute when it starts with `/`, and empty or `.` components are dropped.
* The file system visible to the script is a `FS`: the working directory,
  the script's directory, and the set of existing regular files, each with
  its modification time (`st_mtime`, modelled as a natural number).
* `resolve_weights_path`, `coerce_source` and the control flow of `main`
  are translated function by function from the source.  External effects
  (the `ultralytics` library constructor, `predict`, and the shape of its
  results) are oracles supplied through an `Env` record; `main` is modelled
  as a function producing the sequence of phases executed, the messages
  printed, and the process outcome.
-/

namespace YoloRunCamera

/-- A `pathlib` path: absolute flag plus components.  Built from a string
by POSIX rules (`Path(s)`): absolute iff the string starts with `/`;
empty and `.` components are dropped. -/
structure PyPath where
  absolute : Bool
  components : List String
deriving DecidableEq, Repr

/-- Splitting a character list at every occurrence of a separator; the
accumulator holds the characters of the current piece, reversed. -/
def splitCharAux (sep : Char) (acc : List Char) : List Char → List (List Char)
  | [] => [acc.reverse]
  | c :: rest =>
    if c = sep then acc.reverse :: splitCharAux sep [] rest
    else splitCharAux sep (c :: acc) rest

/-- Splitting a character list at a separator (Python's `str.split`). -/
def splitChar (sep : Char) (cs : List Char) : List (List Char) :=
  splitCharAux sep [] cs

/-- Python's `str.upper`, over the characters of the string. -/
def pyUpper (s : String) : String :=
  ⟨s.data.map Char.toUpper⟩

/-- Whether `s` ends with the suffix `suff` (the `fnmatch` pattern
`*suff`, since `*` may match the empty string). -/
def strEndsWith (s suff : String) : Bool :=
  s.data.reverse.take suff.data.length == suff.data.reverse

/-- Construction `Path(s)` for a POSIX string `s`: absolute iff the
string starts with `/`; empty and `.` components are dropped. -/
def pathOfString (s : String) : PyPath :=
  { absolute := match s.data with
      | '/' :: _ => true
      | _ => false
    components := ((splitChar '/' s.data).map (fun cs => (⟨cs⟩ : String))).filter
      (fun c => c != "" && c != ".") }

/-- The `/` operator of `pathlib`: joining with an absolute right operand
discards the base. -/
def joinP (base p : PyPath) : PyPath :=
  if p.absolute then p else { absolute := base.absolute, components := base.components ++ p.components }

/-- The file system the script runs against: current working directory,
the directory containing the script (`Path(__file__).parent`), and the
existing regular files, each given with its modification time. -/
structure FS where
  cwd : PyPath
  scriptDir : PyPath
  files : List (PyPath × Nat)
deriving DecidableEq, Repr

/-- Existence test `p.is_file()`: a relative path is interpreted against the current
working directory. -/
def isFile (fs : FS) (p : PyPath) : Bool :=
  fs.files.any (fun e => e.1 == joinP fs.cwd p)

/-- Whether a file entry is a hit of `Path(__file__).parent.glob("*.pt")`:
it lies directly in the script's directory and its name ends in `.pt`
(the `fnmatch` pattern `*.pt`, where `*` may match the empty string). -/
def globPt (fs : FS) (e : PyPath × Nat) : Bool :=
  e.1.absolute == fs.scriptDir.absolute &&
  e.1.components.dropLast == fs.scriptDir.components &&
  (match e.1.components.getLast? with
   | some n => strEndsWith n ".pt"
   | none => false)

/-- The `*.pt` files next to the script, in directory-listing order. -/
def ptPairs (fs : FS) : List (PyPath × Nat) := fs.files.filter (globPt fs)

/-- The sort key used by `sorted(..., key=lambda p: p.stat().st_mtime,
reverse=True)`: later modification times first. -/
def mtimeGe (a b : PyPath × Nat) : Prop := b.2 ≤ a.2

instance : DecidableRel mtimeGe := fun a b => inferInstanceAs (Decidable (b.2 ≤ a.2))

instance : IsTotal (PyPath × Nat) mtimeGe := ⟨fun a b => Nat.le_total b.2 a.2⟩

instance : IsTrans (PyPath × Nat) mtimeGe := ⟨fun _ _ _ h1 h2 => Nat.le_trans h2 h1⟩

/-- Python's `sorted` with `reverse=True` on the mtime key: a stable sort
placing greater modification times first. -/
def sortDesc (l : List (PyPath × Nat)) : List (PyPath × Nat) :=
  List.insertionSort mtimeGe l

/-- The two `FileNotFoundError` payloads `resolve_weights_path` can raise. -/
inductive WeightsErr where
  | autoNoPt
  | notFound (spec : String) (tried : List PyPath)
deriving DecidableEq, Repr

/-- Translation of `resolve_weights_path` from the script, line for line: the sentinel
`AUTO` (compared after upper-casing) is handled first and returns the
newest `*.pt` next to the script; otherwise an absolute spec is the only
candidate, and a relative spec is tried as given (against the working
directory) and then relative to the script's directory; the first
candidate that is an existing file is returned. -/
def resolve_weights_path (fs : FS) (weights_spec : String) : Except WeightsErr PyPath :=
  let spec := pathOfString weights_spec
  if pyUpper weights_spec = "AUTO" then
    match sortDesc (ptPairs fs) with
    | c :: _ => .ok c.1
    | [] => .error .autoNoPt
  else
    let candidates := if spec.absolute then [spec] else [spec, joinP fs.scriptDir spec]
    match candidates.find? (fun c => isFile fs c) with
    | some c => .ok c
    | none => .error (.notFound weights_spec candidates)

/-- Python's built-in `int(str)` parsing, after the leading whitespace has
been stripped: an optional sign followed by at least one decimal digit,
with single underscores allowed between digits.  The accumulator holds the
value of the digits read so far. -/
def digitsCore : Nat → List Char → Option Nat
  | acc, [] => some acc
  | acc, c :: cs =>
    if c.isDigit then digitsCore (acc * 10 + (c.toNat - 48)) cs
    else if c = '_' then
      match cs with
      | d :: ds => if d.isDigit then digitsCore (acc * 10 + (d.toNat - 48)) ds else none
      | [] => none
    else none

/-- Value of an unsigned digit string (underscores between digits allowed);
`none` when the characters are not a valid digit string. -/
def digitsVal : List Char → Option Nat
  | [] => none
  | c :: cs => if c.isDigit then digitsCore (c.toNat - 48) cs else none

/-- Stripping of surrounding whitespace (modelled over the ASCII
whitespace characters). -/
def trimAscii (cs : List Char) : List Char :=
  ((cs.dropWhile Char.isWhitespace).reverse.dropWhile Char.isWhitespace).reverse

/-- Python's built-in `int(s)` for a decimal string, modelled over ASCII:
surrounding whitespace is stripped, then an optional sign and a digit
string are read; `none` models the `ValueError`. -/
def pyInt (s : String) : Option Int :=
  match trimAscii s.data with
  | '+' :: rest => (digitsVal rest).map (fun n => (n : Int))
  | '-' :: rest => (digitsVal rest).map (fun n => -(n : Int))
  | rest => (digitsVal rest).map (fun n => (n : Int))

/-- Translation of `coerce_source` from the script: `int(src)` when that succeeds,
otherwise the string unchanged; the `ValueError` is caught, so the
function is total. -/
def coerce_source (src : String) : Sum Int String :=
  match pyInt src with
  | some n => .inl n
  | none => .inr src

/-- Constant `DEFAULT_WEIGHTS` from the script: the raw string
`r"d:\\AI-YOLO\\best.pt"`, i.e. with doubled backslashes. -/
def DEFAULT_WEIGHTS : String := "d:\\\\AI-YOLO\\\\best.pt"

/-- The parsed CLI flags that influence the modelled control flow.
`conf` and `imgsz` are passed through to the external library untouched
and are omitted. -/
structure Args where
  weights : Option String
  source : String
  device : String
  showWin : Bool
  save : Bool
  check : Bool
deriving DecidableEq, Repr

/-- Oracle for the external `ultralytics` library: whether the `YOLO`
constructor raises, whether `predict` raises, whether the returned
`results` value is a non-empty list, whether the first result has boxes,
and whether reading the first result inside the summary `try` block
raises. -/
structure Env where
  constructRaises : Bool
  predictRaises : Bool
  resultsNonempty : Bool
  hasBoxes : Bool
  summarizeRaises : Bool
deriving DecidableEq, Repr

/-- The phases of `main`, in the order the script's text performs them. -/
inductive Step where
  | parse
  | resolveW
  | construct
  | predict
  | summarize
deriving DecidableEq, Repr

/-- The messages `main` prints, one constructor per `print` site. -/
inductive Msg where
  | errText (e : WeightsErr)
  | hint
  | usingWeights (p : PyPath)
  | checkResolved
  | startingInference (src : Sum Int String)
  | doneHeader
  | detections
  | noDetections
  | fallback
deriving DecidableEq, Repr

/-- How the process ends: `ok` is a normal return from `main` (process
status 0), `exited c` is `sys.exit(c)`, and `uncaught` is an exception
propagating out of `main` (Python then prints a traceback and exits with
a nonzero status). -/
inductive Outcome where
  | ok
  | exited (code : Nat)
  | uncaught
deriving DecidableEq, Repr

/-- What a run of `main` did: the phases executed, the messages printed,
and the outcome. -/
structure RunResult where
  steps : List Step
  prints : List Msg
  outcome : Outcome
deriving DecidableEq, Repr

/-- Selection `args.weights if args.weights else DEFAULT_WEIGHTS`: both `None` and
the empty string are falsy and fall back to the hard-coded default. -/
def chosenWeights (args : Args) : String :=
  match args.weights with
  | some w => if w = "" then DEFAULT_WEIGHTS else w
  | none => DEFAULT_WEIGHTS

/-- Translation of `main` from the script: parse (given as `args`), resolve the weights
path (on `FileNotFoundError` print the error and a hint and exit 1),
print the resolved path, stop after resolution under `--check`, construct
the model, coerce the source and announce inference, call `predict`, and
summarize a non-empty result list inside a `try` whose `except` prints a
fallback message.  Exceptions of the external library propagate. -/
def pymain (args : Args) (fs : FS) (env : Env) : RunResult :=
  match resolve_weights_path fs (chosenWeights args) with
  | .error e =>
      { steps := [.parse, .resolveW]
        prints := [.errText e, .hint]
        outcome := .exited 1 }
  | .ok p =>
      if args.check then
        { steps := [.parse, .resolveW]
          prints := [.usingWeights p, .checkResolved]
          outcome := .ok }
      else if env.constructRaises then
        { steps := [.parse, .resolveW, .construct]
          prints := [.usingWeights p]
          outcome := .uncaught }
      else if env.predictRaises then
        { steps := [.parse, .resolveW, .construct, .predict]
          prints := [.usingWeights p, .startingInference (coerce_source args.source)]
          outcome := .uncaught }
      else if env.resultsNonempty then
        if env.summarizeRaises then
          { steps := [.parse, .resolveW, .construct, .predict, .summarize]
            prints := [.usingWeights p, .startingInference (coerce_source args.source),
                       .doneHeader, .fallback]
            outcome := .ok }
        else
          { steps := [.parse, .resolveW, .construct, .predict, .summarize]
            prints := [.usingWeights p, .startingInference (coerce_source args.source),
                       .doneHeader, if env.hasBoxes then Msg.detections else Msg.noDetections]
            outcome := .ok }
      else
        { steps := [.parse, .resolveW, .construct, .predict]
          prints := [.usingWeights p, .startingInference (coerce_source args.source)]
          outcome := .ok }

instance : DecidableEq (Except WeightsErr PyPath) := fun x y =>
  match x, y with
  | .ok a, .ok b =>
      if h : a = b then .isTrue (by rw [h]) else .isFalse (fun hc => h (Except.ok.inj hc))
  | .error a, .error b =>
      if h : a = b then .isTrue (by rw [h]) else .isFalse (fun hc => h (Except.error.inj hc))
  | .ok _, .error _ => .isFalse (fun hc => Except.noConfusion hc)
  | .error _, .ok _ => .isFalse (fun hc => Except.noConfusion hc)

/-- Unfolding of the sentinel branch of `resolve_weights_path`. -/
lemma resolve_auto_eq (fs : FS) (s : String) (h : pyUpper s = "AUTO") :
    resolve_weights_path fs s =
      (match sortDesc (ptPairs fs) with
       | c :: _ => .ok c.1
       | [] => .error .autoNoPt) := by
  unfold resolve_weights_path
  rw [if_pos h]

/-- Unfolding of the non-sentinel branch of `resolve_weights_path`. -/
lemma resolve_nonauto_eq (fs : FS) (s : String) (h : ¬ pyUpper s = "AUTO") :
    resolve_weights_path fs s =
      (match (if (pathOfString s).absolute then [pathOfString s]
              else [pathOfString s, joinP fs.scriptDir (pathOfString s)]).find?
               (fun c => isFile fs c) with
       | some c => .ok c
       | none => .error (.notFound s
           (if (pathOfString s).absolute then [pathOfString s]
            else [pathOfString s, joinP fs.scriptDir (pathOfString s)]))) := by
  unfold resolve_weights_path
  rw [if_neg h]

/- Concrete file systems and argument records used by witnesses and
counterexamples.  All paths are absolute; `home` plays the role of the
working directory and `app` that of the script's directory. -/

/-- A file system whose working directory holds a file literally named
`AUTO` and whose script directory holds two `*.pt` files. -/
def fsDemo : FS :=
  { cwd := { absolute := true, components := ["home"] }
    scriptDir := { absolute := true, components := ["app"] }
    files := [({ absolute := true, components := ["home", "AUTO"] }, 1),
              ({ absolute := true, components := ["app", "m.pt"] }, 2),
              ({ absolute := true, components := ["app", "old.pt"] }, 1)] }

/-- A file system with a weights file `w.pt` both in the working directory
and in the script directory. -/
def fsRel : FS :=
  { cwd := { absolute := true, components := ["home"] }
    scriptDir := { absolute := true, components := ["app"] }
    files := [({ absolute := true, components := ["home", "w.pt"] }, 5),
              ({ absolute := true, components := ["app", "w.pt"] }, 7)] }

/-- A file system with one weights file at the absolute path `/w/best.pt`. -/
def fsAbs : FS :=
  { cwd := { absolute := true, components := ["home"] }
    scriptDir := { absolute := true, components := ["app"] }
    files := [({ absolute := true, components := ["w", "best.pt"] }, 5)] }

/-- A file system with a single weights file `w.pt` in the working
directory. -/
def fsRun : FS :=
  { cwd := { absolute := true, components := ["home"] }
    scriptDir := { absolute := true, components := ["app"] }
    files := [({ absolute := true, components := ["home", "w.pt"] }, 5)] }

/-- A file system holding a file literally named `auto` in the working
directory and one `*.pt` file next to the script. -/
def fsAutoLower : FS :=
  { cwd := { absolute := true, components := ["home"] }
    scriptDir := { absolute := true, components := ["app"] }
    files := [({ absolute := true, components := ["home", "auto"] }, 9),
              ({ absolute := true, components := ["app", "m.pt"] }, 2)] }

/-- The same file system without the literal `auto` file. -/
def fsAutoLowerNoFile : FS :=
  { cwd := { absolute := true, components := ["home"] }
    scriptDir := { absolute := true, components := ["app"] }
    files := [({ absolute := true, components := ["app", "m.pt"] }, 2)] }

/-- Arguments of a plain run: `--weights w.pt`, webcam source, no flags. -/
def argsRun : Args :=
  { weights := some "w.pt", source := "0", device := "", showWin := false
    save := false, check := false }

/-- Arguments of a `--check` run. -/
def argsCheck : Args :=
  { weights := some "w.pt", source := "0", device := "", showWin := false
    save := false, check := true }

/-- Arguments naming a weights file that exists nowhere. -/
def argsBad : Args :=
  { weights := some "nope.pt", source := "0", device := "", showWin := false
    save := false, check := false }

/-- Oracle of a library that never raises and returns an empty result. -/
def envQuiet : Env :=
  { constructRaises := false, predictRaises := false, resultsNonempty := false
    hasBoxes := false, summarizeRaises := false }

/-- Oracle of a library whose `predict` call raises. -/
def envPredictRaising : Env :=
  { constructRaises := false, predictRaises := true, resultsNonempty := false
    hasBoxes := false, summarizeRaises := false }

/-- Oracle of a library whose constructor raises. -/
def envConstructRaising : Env :=
  { constructRaises := true, predictRaises := false, resultsNonempty := false
    hasBoxes := false, summarizeRaises := false }

/-- Oracle of a library returning a non-empty result list whose first
element cannot be summarized. -/
def envSummRaising : Env :=
  { constructRaises := false, predictRaises := false, resultsNonempty := true
    hasBoxes := false, summarizeRaises := true }

/-- Claim C8: for every input string, `coerce_source` returns the integer
value of the string when it parses as a Python integer (`0` yields `0`,
`-1` yields `-1`, surrounding whitespace allowed), and otherwise returns
the original string unchanged; being a total function, it never raises. -/
theorem coerce_source_int_or_identity (s : String) :
    (∀ n : Int, pyInt s = some n → coerce_source s = Sum.inl n) ∧
    (pyInt s = none → coerce_source s = Sum.inr s) ∧
    pyInt "0" = some 0 ∧ pyInt "-1" = some (-1) ∧
    pyInt "  42  " = some 42 ∧ pyInt "abc" = none := by
  refine ⟨?_, ?_, by decide, by decide, by decide, by decide⟩
  · intro n h
    simp [coerce_source, h]
  · intro h
    simp [coerce_source, h]

/-- Witness for C8 at the concrete inputs `0` and `abc`. -/
theorem coerce_source_int_or_identity_witness :
    coerce_source "0" = Sum.inl 0 ∧ coerce_source "abc" = Sum.inr "abc" :=
  ⟨(coerce_source_int_or_identity "0").1 0 (by decide),
   (coerce_source_int_or_identity "abc").2.1 (by decide)⟩

/-- Claim C9: an omitted `--weights` and `--weights ''` both fall back to
the hard-coded `DEFAULT_WEIGHTS`, and the whole run behaves identically in
the two cases. -/
theorem weights_empty_string_like_omitted (args : Args) (fs : FS) (env : Env) :
    chosenWeights { args with weights := some "" } = DEFAULT_WEIGHTS ∧
    chosenWeights { args with weights := none } = DEFAULT_WEIGHTS ∧
    pymain { args with weights := some "" } fs env =
      pymain { args with weights := none } fs env :=
  ⟨rfl, rfl, rfl⟩

/-- Claim C1: for a relative, non-sentinel spec, the spec as given (checked
against the working directory) is tried before the script-directory
candidate, and the first existing file is returned; when neither exists
the failure lists both candidates in that order. -/
theorem resolve_relative_tries_cwd_first (fs : FS) (s : String)
    (hA : ¬ pyUpper s = "AUTO") (hrel : (pathOfString s).absolute = false) :
    (isFile fs (pathOfString s) = true →
        resolve_weights_path fs s = .ok (pathOfString s)) ∧
    (isFile fs (pathOfString s) = false →
        isFile fs (joinP fs.scriptDir (pathOfString s)) = true →
        resolve_weights_path fs s = .ok (joinP fs.scriptDir (pathOfString s))) ∧
    (isFile fs (pathOfString s) = false →
        isFile fs (joinP fs.scriptDir (pathOfString s)) = false →
        resolve_weights_path fs s =
          .error (.notFound s [pathOfString s, joinP fs.scriptDir (pathOfString s)])) := by
  refine ⟨?_, ?_, ?_⟩
  · intro h1
    rw [resolve_nonauto_eq fs s hA]
    simp [hrel, List.find?, h1]
  · intro h1 h2
    rw [resolve_nonauto_eq fs s hA]
    simp [hrel, List.find?, h1, h2]
  · intro h1 h2
    rw [resolve_nonauto_eq fs s hA]
    simp [hrel, List.find?, h1, h2]

/-- Witness for C1: with `w.pt` present both in the working directory and
next to the script, the working-directory candidate wins. -/
theorem resolve_relative_tries_cwd_first_witness :
    resolve_weights_path fsRel "w.pt" = .ok (pathOfString "w.pt") :=
  (resolve_relative_tries_cwd_first fsRel "w.pt" (by decide) (by decide)).1 (by decide)

/-- Claim C4: an absolute, non-sentinel spec that exists as a file is
returned unchanged, and no script-directory-relative candidate is
considered: the result does not depend on the script directory at all. -/
theorem resolve_absolute_returned_directly (fs : FS) (s : String)
    (hA : ¬ pyUpper s = "AUTO") (habs : (pathOfString s).absolute = true) :
    (isFile fs (pathOfString s) = true →
        resolve_weights_path fs s = .ok (pathOfString s)) ∧
    (∀ d : PyPath,
        resolve_weights_path { fs with scriptDir := d } s = resolve_weights_path fs s) := by
  constructor
  · intro h1
    rw [resolve_nonauto_eq fs s hA]
    simp [habs, List.find?, h1]
  · intro d
    rw [resolve_nonauto_eq { fs with scriptDir := d } s hA, resolve_nonauto_eq fs s hA]
    simp only [habs, if_true]
    rfl

/-- Witness for C4 at the absolute path `/w/best.pt`. -/
theorem resolve_absolute_returned_directly_witness :
    resolve_weights_path fsAbs "/w/best.pt" = .ok (pathOfString "/w/best.pt") :=
  (resolve_absolute_returned_directly fsAbs "/w/best.pt" (by decide) (by decide)).1 (by decide)

/-- Permutation property of the modification-time sort. -/
lemma sortDesc_perm (l : List (PyPath × Nat)) : List.Perm (sortDesc l) l :=
  List.perm_insertionSort mtimeGe l

/-- Sortedness property of the modification-time sort. -/
lemma sortDesc_sorted (l : List (PyPath × Nat)) : List.Sorted mtimeGe (sortDesc l) :=
  List.sorted_insertionSort mtimeGe l

/-- Claim C2: for the sentinel `AUTO`, the returned path is one of the
`*.pt` files next to the script and carries the greatest modification
time among them; when no such file exists, the `AUTO` not-found failure
is raised. -/
theorem resolve_auto_picks_newest (fs : FS) :
    (ptPairs fs = [] → resolve_weights_path fs "AUTO" = .error .autoNoPt) ∧
    (ptPairs fs ≠ [] → ∃ e, e ∈ ptPairs fs ∧
        resolve_weights_path fs "AUTO" = .ok e.1 ∧
        ∀ q ∈ ptPairs fs, q.2 ≤ e.2) := by
  have hup : pyUpper "AUTO" = "AUTO" := rfl
  constructor
  · intro h
    rw [resolve_auto_eq fs "AUTO" hup, h]
    rfl
  · intro h
    have hperm := sortDesc_perm (ptPairs fs)
    cases hc : sortDesc (ptPairs fs) with
    | nil =>
        rw [hc] at hperm
        exact absurd hperm.symm.eq_nil h
    | cons x t =>
        refine ⟨x, ?_, ?_, ?_⟩
        · exact hperm.subset (by rw [hc]; exact List.mem_cons_self x t)
        · rw [resolve_auto_eq fs "AUTO" hup, hc]
        · intro q hq
          have hq2 : q ∈ x :: t := by
            rw [← hc]
            exact hperm.mem_iff.mpr hq
          rcases List.mem_cons.mp hq2 with h1 | h1
          · rw [h1]
          · have hsorted := sortDesc_sorted (ptPairs fs)
            rw [hc] at hsorted
            exact List.rel_of_sorted_cons hsorted q h1

/-- Witness for C2 on `fsDemo`, whose script directory holds `m.pt`
(mtime 2) and `old.pt` (mtime 1). -/
theorem resolve_auto_picks_newest_witness :
    ptPairs fsDemo ≠ [] ∧ ∃ e, e ∈ ptPairs fsDemo ∧
      resolve_weights_path fsDemo "AUTO" = .ok e.1 ∧
      ∀ q ∈ ptPairs fsDemo, q.2 ≤ e.2 :=
  ⟨by decide, (resolve_auto_picks_newest fsDemo).2 (by decide)⟩

/-- Modelled from the spec: the path-search routine in the order the spec
states it — absolute-path lookup, then relative-to-working-directory,
then relative-to-script-directory, and only then the
newest-file-by-modification-time search when the sentinel is given. -/
def resolve_weights_path_specOrder (fs : FS) (weights_spec : String) : Except WeightsErr PyPath :=
  let spec := pathOfString weights_spec
  let candidates := if spec.absolute then [spec] else [spec, joinP fs.scriptDir spec]
  match candidates.find? (fun c => isFile fs c) with
  | some c => .ok c
  | none =>
    if pyUpper weights_spec = "AUTO" then
      match sortDesc (ptPairs fs) with
      | c :: _ => .ok c.1
      | [] => .error .autoNoPt
    else .error (.notFound weights_spec candidates)

/-- Counterexample to C3: on a file system whose working directory holds
a file literally named `AUTO`, the code's routine ignores it and performs
the newest-file search at once, while the spec's order would return the
literal file; the two routines disagree. -/
theorem resolve_order_counterexample :
    resolve_weights_path fsDemo "AUTO" ≠ resolve_weights_path_specOrder fsDemo "AUTO" ∧
    isFile fsDemo (pathOfString "AUTO") = true ∧
    resolve_weights_path fsDemo "AUTO" =
      .ok { absolute := true, components := ["app", "m.pt"] } ∧
    resolve_weights_path_specOrder fsDemo "AUTO" =
      .ok { absolute := false, components := ["AUTO"] } := by
  refine ⟨by decide, by decide, by decide, by decide⟩

/-- Claim C3 as amended: the sentinel check is performed first — when the
sentinel is given, the newest-file search runs and no path lookup (which
would consult the working directory) takes place, so the result is
independent of the working directory; only for non-sentinel specs does
the routine try the spec as a path, the working-directory-relative
candidate before the script-directory-relative one. -/
theorem resolve_order_amended (fs : FS) (s : String) :
    (pyUpper s = "AUTO" → ∀ d : PyPath,
        resolve_weights_path { fs with cwd := d } s = resolve_weights_path fs s) ∧
    (¬ pyUpper s = "AUTO" → isFile fs (pathOfString s) = true →
        resolve_weights_path fs s = .ok (pathOfString s)) ∧
    (¬ pyUpper s = "AUTO" → (pathOfString s).absolute = false →
        isFile fs (pathOfString s) = false →
        isFile fs (joinP fs.scriptDir (pathOfString s)) = true →
        resolve_weights_path fs s = .ok (joinP fs.scriptDir (pathOfString s))) := by
  refine ⟨?_, ?_, ?_⟩
  · intro h d
    rw [resolve_auto_eq { fs with cwd := d } s h, resolve_auto_eq fs s h]
    rfl
  · intro h h1
    rw [resolve_nonauto_eq fs s h]
    cases habs : (pathOfString s).absolute <;> simp [habs, List.find?, h1]
  · intro h hrel h1 h2
    rw [resolve_nonauto_eq fs s h]
    simp [hrel, List.find?, h1, h2]

/-- Witness for the amended C3: under the sentinel, moving the working
directory elsewhere does not change the result. -/
theorem resolve_order_amended_witness :
    resolve_weights_path
        { fsDemo with cwd := { absolute := true, components := ["elsewhere"] } } "AUTO" =
      resolve_weights_path fsDemo "AUTO" :=
  (resolve_order_amended fsDemo "AUTO").1 (by decide)
    { absolute := true, components := ["elsewhere"] }

/-- Claim C10: the sentinel test is case-insensitive — for every spelling
whose upper-casing is `AUTO`, the result equals that of `AUTO` itself, it
depends only on the `*.pt` files next to the script (so the spec is never
looked up as a literal file path), and it is the `AUTO` not-found failure
when no `*.pt` file exists, whatever literal files exist. -/
theorem resolve_sentinel_case_insensitive (fs fs' : FS) (s : String)
    (h : pyUpper s = "AUTO") (hpt : ptPairs fs = ptPairs fs') :
    resolve_weights_path fs s = resolve_weights_path fs' s ∧
    resolve_weights_path fs s = resolve_weights_path fs "AUTO" ∧
    (ptPairs fs = [] → resolve_weights_path fs s = .error .autoNoPt) := by
  refine ⟨?_, ?_, ?_⟩
  · rw [resolve_auto_eq fs s h, resolve_auto_eq fs' s h, hpt]
  · rw [resolve_auto_eq fs s h, resolve_auto_eq fs "AUTO" rfl]
  · intro he
    rw [resolve_auto_eq fs s h, he]
    rfl

/-- Witness for C10 at the spelling `auto`, on a file system that even
holds a file literally named `auto` in the working directory: dropping
that file does not change the result. -/
theorem resolve_sentinel_case_insensitive_witness :
    resolve_weights_path fsAutoLower "auto" = resolve_weights_path fsAutoLowerNoFile "auto" ∧
    resolve_weights_path fsAutoLower "auto" = resolve_weights_path fsAutoLower "AUTO" ∧
    (ptPairs fsAutoLower = [] →
        resolve_weights_path fsAutoLower "auto" = .error .autoNoPt) :=
  resolve_sentinel_case_insensitive fsAutoLower fsAutoLowerNoFile "auto" (by decide) (by decide)

/-- Counterexample to C5: on a run whose weights resolve successfully but
whose `predict` call raises, the exception propagates out of `main`
instead of the process exiting with status 0. -/
theorem main_exit_counterexample :
    resolve_weights_path fsRun (chosenWeights argsRun) = .ok (pathOfString "w.pt") ∧
    argsRun.check = false ∧
    (pymain argsRun fsRun envPredictRaising).outcome = .uncaught ∧
    (pymain argsRun fsRun envPredictRaising).outcome ≠ .ok := by
  refine ⟨by decide, by decide, by decide, by decide⟩

/-- Claim C5 as amended: when the weights path cannot be resolved, the
program prints the failure and a remediation hint and exits with status
1; every other run in which the external library's constructor and
`predict` call do not raise — including the `--check` early exit —
returns normally (process status 0).  A failure raised by the constructor
or by `predict` instead propagates out of `main`. -/
theorem main_exit_status (args : Args) (fs : FS) (env : Env) :
    (∀ e, resolve_weights_path fs (chosenWeights args) = .error e →
        (pymain args fs env).outcome = .exited 1 ∧
        Msg.hint ∈ (pymain args fs env).prints ∧
        Msg.errText e ∈ (pymain args fs env).prints) ∧
    (∀ p, resolve_weights_path fs (chosenWeights args) = .ok p → args.check = true →
        (pymain args fs env).outcome = .ok) ∧
    (∀ p, resolve_weights_path fs (chosenWeights args) = .ok p →
        env.constructRaises = false → env.predictRaises = false →
        (pymain args fs env).outcome = .ok) := by
  refine ⟨?_, ?_, ?_⟩
  · intro e he
    simp [pymain, he]
  · intro p hp hc
    simp [pymain, hp, hc]
  · intro p hp h1 h2
    cases hc : args.check
    · cases h3 : env.resultsNonempty <;> cases h4 : env.summarizeRaises <;>
        simp [pymain, hp, hc, h1, h2, h3, h4]
    · simp [pymain, hp, hc]

/-- Witness for the amended C5: a run asking for a weights file that
exists nowhere exits with status 1 after printing the failure and the
hint. -/
theorem main_exit_status_witness :
    (pymain argsBad fsRun envQuiet).outcome = .exited 1 ∧
    Msg.hint ∈ (pymain argsBad fsRun envQuiet).prints ∧
    Msg.errText
        (.notFound "nope.pt"
          [{ absolute := false, components := ["nope.pt"] },
           { absolute := true, components := ["app", "nope.pt"] }]) ∈
      (pymain argsBad fsRun envQuiet).prints :=
  (main_exit_status argsBad fsRun envQuiet).1
    (.notFound "nope.pt"
      [{ absolute := false, components := ["nope.pt"] },
       { absolute := true, components := ["app", "nope.pt"] }])
    (by decide)

/-- Claim C6: the phases run in the order parse, resolve, construct,
predict, summarize; the model is constructed only when resolution
succeeded and `--check` was not given; under `--check` neither the
constructor nor `predict` runs; and `predict` runs only after the
constructor. -/
theorem main_phase_order (args : Args) (fs : FS) (env : Env) :
    (pymain args fs env).steps.Sublist
        [Step.parse, Step.resolveW, Step.construct, Step.predict, Step.summarize] ∧
    (Step.construct ∈ (pymain args fs env).steps →
        (∃ p, resolve_weights_path fs (chosenWeights args) = .ok p) ∧ args.check = false) ∧
    (args.check = true →
        Step.construct ∉ (pymain args fs env).steps ∧
        Step.predict ∉ (pymain args fs env).steps) ∧
    (Step.predict ∈ (pymain args fs env).steps →
        Step.construct ∈ (pymain args fs env).steps) := by
  cases hres : resolve_weights_path fs (chosenWeights args) with
  | error e =>
      refine ⟨?_, ?_, ?_, ?_⟩ <;> simp [pymain, hres]
  | ok p =>
      cases hc : args.check
      · cases h1 : env.constructRaises
        · cases h2 : env.predictRaises
          · cases h3 : env.resultsNonempty <;> cases h4 : env.summarizeRaises <;>
              (refine ⟨?_, ?_, ?_, ?_⟩ <;> simp [pymain, hres, hc, h1, h2, h3, h4])
          · refine ⟨?_, ?_, ?_, ?_⟩ <;> simp [pymain, hres, hc, h1, h2]
        · refine ⟨?_, ?_, ?_, ?_⟩ <;> simp [pymain, hres, hc, h1]
      · refine ⟨?_, ?_, ?_, ?_⟩ <;> simp [pymain, hres, hc]

/-- Witness for C6: a `--check` run never constructs the model nor calls
predict. -/
theorem main_phase_order_witness :
    Step.construct ∉ (pymain argsCheck fsRun envQuiet).steps ∧
    Step.predict ∉ (pymain argsCheck fsRun envQuiet).steps :=
  (main_phase_order argsCheck fsRun envQuiet).2.2.1 (by decide)

/-- Counterexample to C7: a failure raised by the model constructor is
not swallowed — it propagates out of `main` and no fallback message is
printed. -/
theorem swallow_counterexample :
    (pymain argsRun fsRun envConstructRaising).outcome = .uncaught ∧
    Msg.fallback ∉ (pymain argsRun fsRun envConstructRaising).prints := by
  refine ⟨by decide, by decide⟩

/-- Claim C7 as amended: only failures raised during the
results-summarization step are swallowed — the run still returns normally
and prints the best-effort fallback message; failures raised by the model
constructor or the `predict` call propagate out of the program. -/
theorem summarize_failures_swallowed (args : Args) (fs : FS) (env : Env)
    (hck : args.check = false) (p : PyPath)
    (hres : resolve_weights_path fs (chosenWeights args) = .ok p) :
    (env.constructRaises = false → env.predictRaises = false →
        env.resultsNonempty = true → env.summarizeRaises = true →
        (pymain args fs env).outcome = .ok ∧
        Msg.fallback ∈ (pymain args fs env).prints) ∧
    (env.constructRaises = true → (pymain args fs env).outcome = .uncaught) ∧
    (env.constructRaises = false → env.predictRaises = true →
        (pymain args fs env).outcome = .uncaught) := by
  refine ⟨?_, ?_, ?_⟩
  · intro hcr hpr hrn hsr
    simp [pymain, hres, hck, hcr, hpr, hrn, hsr]
  · intro hcr
    simp [pymain, hres, hck, hcr]
  · intro hcr hpr
    simp [pymain, hres, hck, hcr, hpr]

/-- Witness for the amended C7: with a result list whose first element
cannot be summarized, the run exits normally and prints the fallback. -/
theorem summarize_failures_swallowed_witness :
    (pymain argsRun fsRun envSummRaising).outcome = .ok ∧
    Msg.fallback ∈ (pymain argsRun fsRun envSummRaising).prints :=
  (summarize_failures_swallowed argsRun fsRun envSummRaising rfl
      (pathOfString "w.pt") (by decide)).1 rfl rfl rfl rfl

end YoloRunCamera
